import Mathlib

/-!
Shallow embedding of the aws-finops-cost-optimizer repository.

Each Python unit is translated into a pure Lean function.  Remote API
calls (create_tags, stop_instances, delete_snapshot, get_cost_and_usage,
describe_*) are modelled by explicit call-trace values returned alongside
the ordinary result, so that "how many remote calls were issued" is a
provable property.  Timestamps are integers measured in days; metric
values and costs are rationals.
-/

namespace FinOps

/-! ### Auto tagger (src/lambda/auto_tagger/main.py) -/

/-- An EC2 instance as seen by the auto tagger: its id and its tag list
(key/value pairs, mirroring the Tags list of the describe_instances
response). -/
structure TInstance where
  instanceId : String
  tags : List (String × String)
deriving Repr, DecidableEq

/-- An EBS volume as seen by the auto tagger. -/
structure TVolume where
  volumeId : String
  tags : List (String × String)
deriving Repr, DecidableEq

/-- One create_tags remote call: the targeted resource ids and the
key/value pairs passed. -/
structure TagCall where
  resources : List String
  tags : List (String × String)
deriving Repr, DecidableEq

/-- The tag delta computed inside the per-resource loop body:
`tags_to_add = \x7bk: v for k, v in default_tags.items() if k not in existing_tags\x7d`. -/
def tagsToAdd (defaultTags : List (String × String)) (existingKeys : List String) :
    List (String × String) :=
  defaultTags.filter (fun kv => !existingKeys.contains kv.1)

/-- tag_untagged_instances: walks the instance list; for each instance
computes the tag delta and, when it is non-empty, issues one create_tags
call for that instance and records its id.  Returns (tagged ids, trace of
create_tags calls), in loop order. -/
def tag_untagged_instances (defaultTags : List (String × String)) :
    List TInstance → List String × List TagCall
  | [] => ([], [])
  | inst :: rest =>
      let delta := tagsToAdd defaultTags (inst.tags.map Prod.fst)
      let r := tag_untagged_instances defaultTags rest
      if delta = [] then r
      else (inst.instanceId :: r.1, ⟨[inst.instanceId], delta⟩ :: r.2)

/-- tag_untagged_volumes: same loop over volumes. -/
def tag_untagged_volumes (defaultTags : List (String × String)) :
    List TVolume → List String × List TagCall
  | [] => ([], [])
  | vol :: rest =>
      let delta := tagsToAdd defaultTags (vol.tags.map Prod.fst)
      let r := tag_untagged_volumes defaultTags rest
      if delta = [] then r
      else (vol.volumeId :: r.1, ⟨[vol.volumeId], delta⟩ :: r.2)

/-- The tag state of an instance after the tagger has applied its delta:
the issued create_tags call adds exactly the delta pairs to the resource. -/
def applyDefaultTags (defaultTags : List (String × String)) (inst : TInstance) : TInstance :=
  { inst with tags := inst.tags ++ tagsToAdd defaultTags (inst.tags.map Prod.fst) }

/-- The tag state of a volume after the tagger has applied its delta. -/
def applyDefaultTagsV (defaultTags : List (String × String)) (vol : TVolume) : TVolume :=
  { vol with tags := vol.tags ++ tagsToAdd defaultTags (vol.tags.map Prod.fst) }

/-! ### Scheduler (src/lambda/scheduler/main.py) -/

/-- An instance as seen by the scheduler: id, tag list, and state name. -/
structure SInstance where
  instanceId : String
  tags : List (String × String)
  state : String
deriving Repr, DecidableEq

/-- get_instances_by_tag: the server-side filters select instances whose
tag list carries (tag_key, tag_value) and whose state is running when the
value is stop, stopped otherwise; the loop collects their ids. -/
def get_instances_by_tag (instances : List SInstance) (tagKey tagValue : String) :
    List String :=
  ((instances.filter (fun i =>
      i.tags.contains (tagKey, tagValue) &&
      i.state = (if tagValue = "stop" then "running" else "stopped"))).map
    (fun i => i.instanceId))

/-- stop_instances: one bulk stop_instances remote call when the matched
list is non-empty, none otherwise.  Returns (matched ids, trace of bulk
stop calls, each a list of targeted ids). -/
def stop_instances (instances : List SInstance) (tagKey : String) :
    List String × List (List String) :=
  let toStop := get_instances_by_tag instances tagKey "stop"
  if toStop = [] then (toStop, []) else (toStop, [toStop])

/-- start_instances: one bulk start_instances remote call when the matched
list is non-empty, none otherwise. -/
def start_instances (instances : List SInstance) (tagKey : String) :
    List String × List (List String) :=
  let toStart := get_instances_by_tag instances tagKey "start"
  if toStart = [] then (toStart, []) else (toStart, [toStart])

/-- An HTTP-style handler response: status code and body. -/
structure HandlerResponse where
  statusCode : Nat
  body : String
deriving Repr, DecidableEq

/-- scheduler lambda_handler.  The module imports boto3, os and typing but
never imports json, while the stop and start branches end in
json.dumps(...): reaching that expression raises NameError, modelled as
Except.error.  The bulk stop/start call has already been issued by then,
so the call trace is returned alongside.  The invalid-action branch uses
no json and returns a plain 400 response. -/
def scheduler_lambda_handler (instances : List SInstance) (tagKey : String)
    (action : String) : List (List String) × Except String HandlerResponse :=
  if action = "stop" then
    let r := stop_instances instances tagKey
    (r.2, Except.error ("NameError: name json is not defined"))
  else if action = "start" then
    let r := start_instances instances tagKey
    (r.2, Except.error ("NameError: name json is not defined"))
  else
    ([], Except.ok ⟨400, "Invalid action specified"⟩)

/-! ### Snapshot cleanup (src/lambda/snapshot_cleanup/main.py) -/

/-- A snapshot as seen by the cleanup lambda: id, StartTime (days), tags. -/
structure CSnapshot where
  snapshotId : String
  startTime : Int
  tags : List (String × String)
deriving Repr, DecidableEq

/-- The Retain override check:
any(tag.get("Key") == "Retain" for tag in snapshot.get("Tags", [])). -/
def hasRetainTag (tags : List (String × String)) : Bool :=
  tags.any (fun t => t.1 = "Retain")

/-- cleanup_snapshots: for each snapshot, first the Retain override check
(continue), then the age check (start_time earlier than now minus the
retention window).  In dry-run mode the id is recorded without a delete
call; otherwise delete_snapshot is issued (its id enters the call trace)
and the id is recorded only when the call succeeds — a failure is caught
and the loop continues.  deleteOk is the environment: whether the delete
call for a given snapshot id succeeds.  Returns (deleted ids, trace of
delete_snapshot calls), in loop order. -/
def cleanup_snapshots (snaps : List CSnapshot) (retentionDays : Int) (now : Int)
    (dryRun : Bool) (deleteOk : String → Bool) : List String × List String :=
  match snaps with
  | [] => ([], [])
  | s :: rest =>
      let r := cleanup_snapshots rest retentionDays now dryRun deleteOk
      if hasRetainTag s.tags then r
      else if s.startTime < now - retentionDays then
        if dryRun then (s.snapshotId :: r.1, r.2)
        else if deleteOk s.snapshotId then (s.snapshotId :: r.1, s.snapshotId :: r.2)
        else (r.1, s.snapshotId :: r.2)
      else r

/-- A snapshot is matched by the cleanup filter when it carries no Retain
tag and is older than the retention window.  This is the predicate the
per-snapshot control flow implements. -/
def snapshotEligible (retentionDays now : Int) (s : CSnapshot) : Bool :=
  !hasRetainTag s.tags && decide (s.startTime < now - retentionDays)

/-! ### Unused-resource scanner (src/scripts/unused_resources.py) -/

/-- A running instance paired with the CloudWatch daily-average CPU
datapoints its get_metric_statistics query returns (empty list when the
metrics API returns no datapoints). -/
structure UInstance where
  instanceId : String
  instanceType : String
  datapoints : List ℚ
deriving Repr, DecidableEq

/-- Maximum of a list of rationals, 0 on the empty list (the code only
takes it on a non-empty datapoint list). -/
def listMax : List ℚ → ℚ
  | [] => 0
  | [x] => x
  | x :: y :: rest => max x (listMax (y :: rest))

/-- The arithmetic mean of a sample list.  This is the quantity the
specification scenario constrains; the scan itself compares the maximum
datapoint, not the mean. -/
def sampleMean (dps : List ℚ) : ℚ :=
  dps.sum / dps.length

/-- Round-half-even at integer precision, the tie-breaking rule the
Python "%.2f" formatting and round() builtin use. -/
def roundHalfEven (q : ℚ) : ℤ :=
  if q - Int.floor q < 1 / 2 then Int.floor q
  else if 1 / 2 < q - Int.floor q then Int.floor q + 1
  else if Int.floor q % 2 = 0 then Int.floor q else Int.floor q + 1

/-- Rendering of a non-negative metric value as in f"\x7bv:.2f\x7d": two
decimal places. -/
def format2 (q : ℚ) : String :=
  let n : ℤ := roundHalfEven (q * 100)
  let ip := n / 100
  let fp := (n % 100).toNat
  toString ip ++ "." ++ (if fp < 10 then "0" else "") ++ toString fp

/-- A finding record of the idle-instance scan. -/
structure IdleFinding where
  instanceIdF : String
  instanceTypeF : String
  regionF : String
  findingF : String
  metricF : String
  valueF : String
  recommendationF : String
deriving Repr, DecidableEq

/-- find_idle_ec2_instances: for each running instance, query the daily
CPU datapoints; when the list is non-empty take the maximum average
(the code names it avg_cpu, but it is max over the daily averages) and
flag the instance when it is strictly below the threshold. -/
def find_idle_ec2_instances (region : String) (instances : List UInstance)
    (cpuThreshold : ℚ) (days : Nat) : List IdleFinding :=
  (instances.filter (fun i =>
      !i.datapoints.isEmpty && decide (listMax i.datapoints < cpuThreshold))).map
    (fun i =>
      { instanceIdF := i.instanceId
        instanceTypeF := i.instanceType
        regionF := region
        findingF := "Idle EC2 Instance"
        metricF := "Max CPU Utilization (" ++ toString days ++ "d)"
        valueF := format2 (listMax i.datapoints) ++ "%"
        recommendationF := "Stop or terminate instance" })

/-- A snapshot as seen by the unused-resources scan. -/
structure USnapshot where
  snapshotId : String
  volumeId : String
  startTime : Int
  tags : List (String × String)
deriving Repr, DecidableEq

/-- A finding record of the old-snapshot scan. -/
structure SnapFinding where
  snapshotIdF : String
  volumeIdF : String
  startTimeF : Int
  regionF : String
  findingF : String
  recommendationF : String
deriving Repr, DecidableEq

/-- find_old_ebs_snapshots: flags every snapshot strictly older than the
retention window.  The loop body contains no tag inspection at all: age
is the only condition. -/
def find_old_ebs_snapshots (region : String) (snaps : List USnapshot)
    (retentionDays : Int) (now : Int) : List SnapFinding :=
  (snaps.filter (fun s => decide (s.startTime < now - retentionDays))).map
    (fun s =>
      { snapshotIdF := s.snapshotId
        volumeIdF := s.volumeId
        startTimeF := s.startTime
        regionF := region
        findingF := "Old EBS Snapshot"
        recommendationF :=
          "Delete snapshot (older than " ++ toString retentionDays ++ " days)" })

/-! ### Right-sizing scanner (src/scripts/rightsizing_recommendations.py) -/

/-- A running instance paired with its hourly maximum CPU datapoints. -/
structure RInstance where
  instanceId : String
  instanceType : String
  datapoints : List ℚ
deriving Repr, DecidableEq

/-- A right-sizing recommendation record. -/
structure RSFinding where
  instanceIdF : String
  instanceTypeF : String
  regionF : String
  findingF : String
  maxCpuF : String
  maxMemoryF : String
  recommendationF : String
deriving Repr, DecidableEq

/-- get_right_sizing_recommendations: instances with no datapoints are
skipped; otherwise the max CPU over the window is compared strictly
against cpu_threshold, and the memory figure is the hardcoded placeholder
30.0 compared strictly against mem_threshold. -/
def get_right_sizing_recommendations (region : String) (instances : List RInstance)
    (cpuThreshold memThreshold : ℚ) : List RSFinding :=
  (instances.filter (fun i =>
      !i.datapoints.isEmpty &&
      decide (listMax i.datapoints < cpuThreshold) &&
      decide ((30 : ℚ) < memThreshold))).map
    (fun i =>
      { instanceIdF := i.instanceId
        instanceTypeF := i.instanceType
        regionF := region
        findingF := "Over-provisioned EC2 Instance"
        maxCpuF := format2 (listMax i.datapoints) ++ "%"
        maxMemoryF := format2 30 ++ "% (Simulated)"
        recommendationF :=
          "Consider smaller instance type (e.g., from " ++ i.instanceType ++
            " to a smaller size in the same family)" })

/-! ### Cost analysis (src/scripts/cost_analysis.py) -/

/-- One group of a Cost Explorer response: Keys, UnblendedCost Amount and
its currency Unit. -/
structure CEGroup where
  keys : List String
  amount : ℚ
  unit : String
deriving Repr, DecidableEq

/-- One ResultsByTime entry of the Cost Explorer response. -/
structure CEResult where
  periodStart : String
  periodEnd : String
  groups : List CEGroup
deriving Repr, DecidableEq

/-- A parsed cost record; Percentage is absent until
calculate_percentage adds it. -/
structure CostRecord where
  periodStart : String
  periodEnd : String
  dimension : String
  value : String
  cost : ℚ
  currency : String
  percentage : Option ℚ
deriving Repr, DecidableEq

/-- Rounding to two decimal places, as Python round(x, 2). -/
def round2 (q : ℚ) : ℚ :=
  (roundHalfEven (q * 100) : ℚ) / 100

/-- The parse loop of analyze_costs: one record per group of each
ResultsByTime entry, cost rounded to two decimals. -/
def parseCostRecords (dim : String) (results : List CEResult) : List CostRecord :=
  (results.map (fun res =>
      res.groups.map (fun g =>
        { periodStart := res.periodStart
          periodEnd := res.periodEnd
          dimension := dim
          value := g.keys.headD ""
          cost := round2 g.amount
          currency := g.unit
          percentage := none }))).flatten

/-- Stable insertion of a record into a cost-descending list: the record
goes after every earlier record of greater or equal cost. -/
def insertCostDesc (r : CostRecord) : List CostRecord → List CostRecord
  | [] => [r]
  | s :: ss => if r.cost ≤ s.cost then s :: insertCostDesc r ss else r :: s :: ss

/-- The stable cost-descending sort of
cost_records.sort(key=..., reverse=True). -/
def sortCostDesc : List CostRecord → List CostRecord
  | [] => []
  | r :: rs => insertCostDesc r (sortCostDesc rs)

/-- analyze_costs after the query: parse the grouped response and sort by
cost descending. -/
def analyze_costs (dim : String) (results : List CEResult) : List CostRecord :=
  sortCostDesc (parseCostRecords dim results)

/-- calculate_total_cost: sum of the record costs. -/
def calculate_total_cost (records : List CostRecord) : ℚ :=
  (records.map (fun r => r.cost)).sum

/-- calculate_percentage: when the total is non-zero, each record gains
Percentage = round(cost / total * 100, 2); a zero total leaves the
records untouched. -/
def calculate_percentage (records : List CostRecord) : List CostRecord :=
  let total := calculate_total_cost records
  if total = 0 then records
  else records.map (fun r => { r with percentage := some (round2 (r.cost / total * 100)) })

/-! ### The two script entry points, at the level of remote calls and
exit status (for the validation-ordering claims). -/

/-- The remote API calls a run can issue. -/
inductive RemoteCall where
  | getCostAndUsage
  | describeInstances
  | getMetricStatistics (instanceId : String)
  | describeVolumes
  | describeAddresses
  | getCallerIdentity
  | describeSnapshots
  | describeRegions
deriving Repr, DecidableEq

/-- Python str.endswith, at the character level. -/
def endsWithExt (s suffix : String) : Bool :=
  suffix.data.isSuffixOf s.data

/-- cost_analysis main, after argument parsing: analyze_costs always
issues the get_cost_and_usage query; only afterwards, when an output file
was requested, is its extension examined, and a name ending in neither
.csv nor .json reaches the error branch with sys.exit(1).  File writing
itself is modelled as succeeding.  Returns (remote-call trace, exit
status). -/
def cost_analysis_main (output : Option String) : List RemoteCall × Nat :=
  let trace := [RemoteCall.getCostAndUsage]
  match output with
  | none => (trace, 0)
  | some f =>
      if endsWithExt f ".csv" then (trace, 0)
      else if endsWithExt f ".json" then (trace, 0)
      else (trace, 1)

/-- The scan environment of one region for the unused-resources scan. -/
structure ScanEnv where
  instances : List UInstance
  volumes : List String
  addresses : List String
  snapshots : List USnapshot
deriving Repr

/-- The remote calls scan_all issues for one region, in order: the
instance listing with one metrics query per running instance, the volume
listing, the address listing, the caller-identity lookup and the snapshot
listing. -/
def scan_all_calls (env : ScanEnv) : List RemoteCall :=
  RemoteCall.describeInstances ::
    (env.instances.map (fun i => RemoteCall.getMetricStatistics i.instanceId) ++
      [RemoteCall.describeVolumes, RemoteCall.describeAddresses,
        RemoteCall.getCallerIdentity, RemoteCall.describeSnapshots])

/-- unused_resources main, after argument parsing: supplying neither a
region nor the all-regions flag is rejected with sys.exit(1) before any
client is used; a named region is scanned directly; the all-regions path
first issues describe_regions (modelled for a single region).  Returns
(remote-call trace, exit status). -/
def unused_resources_main (region : Option String) (allRegions : Bool)
    (env : ScanEnv) : List RemoteCall × Nat :=
  match region with
  | some _ => (scan_all_calls env, 0)
  | none =>
      if allRegions then (RemoteCall.describeRegions :: scan_all_calls env, 0)
      else ([], 1)

/-! ### Helper lemmas -/

/-- Membership in the tag delta: exactly the desired pairs whose key is
not among the existing keys. -/
theorem mem_tagsToAdd (D : List (String × String)) (E : List String) (kv : String × String) :
    kv ∈ tagsToAdd D E ↔ kv ∈ D ∧ kv.1 ∉ E := by
  simp [tagsToAdd, List.mem_filter]

/-- After the delta has been applied, the delta of the new tag state is
empty. -/
theorem tagsToAdd_after (D : List (String × String)) (E : List String) :
    tagsToAdd D (E ++ (tagsToAdd D E).map Prod.fst) = [] := by
  rw [tagsToAdd, List.filter_eq_nil_iff]
  intro kv hkv
  have hm : kv.1 ∈ E ++ (tagsToAdd D E).map Prod.fst := by
    by_cases hE : kv.1 ∈ E
    · exact List.mem_append.mpr (Or.inl hE)
    · exact List.mem_append.mpr (Or.inr (List.mem_map.mpr
        ⟨kv, (mem_tagsToAdd D E kv).mpr ⟨hkv, hE⟩, rfl⟩))
  have hc : (E ++ (tagsToAdd D E).map Prod.fst).contains kv.1 = true := List.elem_iff.mpr hm
  simp [hc]
  intro hE
  exact ⟨kv.2, (mem_tagsToAdd D E (kv.1, kv.2)).mpr ⟨by simpa using hkv, hE⟩⟩

/-- Closed form of the instance-tagging loop: the tagged ids and the
create_tags trace are the filterMap of the per-instance delta test. -/
theorem tag_untagged_instances_eq (D : List (String × String)) (insts : List TInstance) :
    tag_untagged_instances D insts =
      (insts.filterMap (fun i =>
        if tagsToAdd D (i.tags.map Prod.fst) = [] then none else some i.instanceId),
       insts.filterMap (fun i =>
        if tagsToAdd D (i.tags.map Prod.fst) = [] then none
        else some ⟨[i.instanceId], tagsToAdd D (i.tags.map Prod.fst)⟩)) := by
  induction insts with
  | nil => rfl
  | cons i rest ih =>
      by_cases hd : tagsToAdd D (i.tags.map Prod.fst) = [] <;>
        simp [tag_untagged_instances, List.filterMap_cons, hd, ih]

/-- Closed form of the volume-tagging loop. -/
theorem tag_untagged_volumes_eq (D : List (String × String)) (vols : List TVolume) :
    tag_untagged_volumes D vols =
      (vols.filterMap (fun v =>
        if tagsToAdd D (v.tags.map Prod.fst) = [] then none else some v.volumeId),
       vols.filterMap (fun v =>
        if tagsToAdd D (v.tags.map Prod.fst) = [] then none
        else some ⟨[v.volumeId], tagsToAdd D (v.tags.map Prod.fst)⟩)) := by
  induction vols with
  | nil => rfl
  | cons v rest ih =>
      by_cases hd : tagsToAdd D (v.tags.map Prod.fst) = [] <;>
        simp [tag_untagged_volumes, List.filterMap_cons, hd, ih]

/-- A second tagger run over instances whose deltas were applied tags
nothing and issues no create_tags call. -/
theorem tag_untagged_instances_idem (D : List (String × String)) (insts : List TInstance) :
    tag_untagged_instances D (insts.map (applyDefaultTags D)) = ([], []) := by
  induction insts with
  | nil => rfl
  | cons i rest ih =>
      have h : tagsToAdd D ((applyDefaultTags D i).tags.map Prod.fst) = [] := by
        simpa [applyDefaultTags] using tagsToAdd_after D (i.tags.map Prod.fst)
      simp [tag_untagged_instances, h, ih]

/-- A second tagger run over volumes whose deltas were applied tags
nothing and issues no create_tags call. -/
theorem tag_untagged_volumes_idem (D : List (String × String)) (vols : List TVolume) :
    tag_untagged_volumes D (vols.map (applyDefaultTagsV D)) = ([], []) := by
  induction vols with
  | nil => rfl
  | cons v rest ih =>
      have h : tagsToAdd D ((applyDefaultTagsV D v).tags.map Prod.fst) = [] := by
        simpa [applyDefaultTagsV] using tagsToAdd_after D (v.tags.map Prod.fst)
      simp [tag_untagged_volumes, h, ih]

/-- Closed form of the cleanup loop, for both modes: dry-run returns all
matched ids with an empty delete trace; non-dry-run attempts a delete for
every matched id (the trace) and returns only the ids whose delete
succeeded. -/
theorem cleanup_snapshots_spec (snaps : List CSnapshot) (r n : Int) (deleteOk : String → Bool) :
    cleanup_snapshots snaps r n true deleteOk =
      ((snaps.filter (snapshotEligible r n)).map (fun s => s.snapshotId), []) ∧
    cleanup_snapshots snaps r n false deleteOk =
      (((snaps.filter (snapshotEligible r n)).filter
          (fun s => deleteOk s.snapshotId)).map (fun s => s.snapshotId),
       (snaps.filter (snapshotEligible r n)).map (fun s => s.snapshotId)) := by
  induction snaps with
  | nil => exact ⟨rfl, rfl⟩
  | cons s rest ih =>
      by_cases hret : hasRetainTag s.tags <;>
        by_cases hage : s.startTime < n - r <;>
          by_cases hdel : deleteOk s.snapshotId <;>
            simp_all [cleanup_snapshots, snapshotEligible, List.filter_cons]

/-! ### Claim theorems -/

/-- C1: for every resource the tags the tagger applies are exactly the
desired pairs whose keys are not already present (so no existing tag is
overwritten), for instances and volumes alike; and a second run on the
resulting tag state computes an empty delta everywhere, tagging nothing
and issuing no call — the operation is idempotent. -/
theorem tagger_delta_exact_and_idempotent :
    (∀ (D : List (String × String)) (E : List String) (kv : String × String),
        kv ∈ tagsToAdd D E ↔ kv ∈ D ∧ kv.1 ∉ E)
    ∧ (∀ (D : List (String × String)) (insts : List TInstance),
        (tag_untagged_instances D insts).2 =
          insts.filterMap (fun i =>
            if tagsToAdd D (i.tags.map Prod.fst) = [] then none
            else some ⟨[i.instanceId], tagsToAdd D (i.tags.map Prod.fst)⟩))
    ∧ (∀ (D : List (String × String)) (vols : List TVolume),
        (tag_untagged_volumes D vols).2 =
          vols.filterMap (fun v =>
            if tagsToAdd D (v.tags.map Prod.fst) = [] then none
            else some ⟨[v.volumeId], tagsToAdd D (v.tags.map Prod.fst)⟩))
    ∧ (∀ (D : List (String × String)) (insts : List TInstance),
        tag_untagged_instances D (insts.map (applyDefaultTags D)) = ([], []))
    ∧ (∀ (D : List (String × String)) (vols : List TVolume),
        tag_untagged_volumes D (vols.map (applyDefaultTagsV D)) = ([], [])) := by
  refine ⟨mem_tagsToAdd, ?_, ?_, tag_untagged_instances_idem, tag_untagged_volumes_idem⟩
  · intro D insts
    exact congrArg Prod.snd (tag_untagged_instances_eq D insts)
  · intro D vols
    exact congrArg Prod.snd (tag_untagged_volumes_eq D vols)

/-- C2: the action executors issue exactly one bulk remote mutating call
when their match list is non-empty and none when it is empty: the
scheduler's stop and start paths issue one bulk stop/start call targeting
the whole matched list, and the tagger issues one create_tags call per
resource exactly when that resource's tag delta is non-empty. -/
theorem executor_single_bulk_call_iff_nonempty :
    (∀ (instances : List SInstance) (tagKey : String),
        (stop_instances instances tagKey).2 =
          if get_instances_by_tag instances tagKey "stop" = [] then []
          else [get_instances_by_tag instances tagKey "stop"])
    ∧ (∀ (instances : List SInstance) (tagKey : String),
        (start_instances instances tagKey).2 =
          if get_instances_by_tag instances tagKey "start" = [] then []
          else [get_instances_by_tag instances tagKey "start"])
    ∧ (∀ (D : List (String × String)) (insts : List TInstance),
        (tag_untagged_instances D insts).2 =
          insts.filterMap (fun i =>
            if tagsToAdd D (i.tags.map Prod.fst) = [] then none
            else some ⟨[i.instanceId], tagsToAdd D (i.tags.map Prod.fst)⟩)) := by
  refine ⟨?_, ?_, ?_⟩
  · intro instances tagKey
    by_cases h : get_instances_by_tag instances tagKey "stop" = [] <;>
      simp [stop_instances, h]
  · intro instances tagKey
    by_cases h : get_instances_by_tag instances tagKey "start" = [] <;>
      simp [start_instances, h]
  · intro D insts
    exact congrArg Prod.snd (tag_untagged_instances_eq D insts)

/-- C8: in non-dry-run cleanup every matched snapshot's delete is
attempted — the delete trace covers all matched ids, so a failure does
not abort the batch — while a failed delete only excludes that id from
the returned success list. -/
theorem delete_failure_isolated :
    ∀ (snaps : List CSnapshot) (r n : Int) (deleteOk : String → Bool),
      (cleanup_snapshots snaps r n false deleteOk).2 =
        (snaps.filter (snapshotEligible r n)).map (fun s => s.snapshotId)
      ∧ (cleanup_snapshots snaps r n false deleteOk).1 =
        ((snaps.filter (snapshotEligible r n)).filter
            (fun s => deleteOk s.snapshotId)).map (fun s => s.snapshotId) := by
  intro snaps r n deleteOk
  have h := (cleanup_snapshots_spec snaps r n deleteOk).2
  exact ⟨congrArg Prod.snd h, congrArg Prod.fst h⟩

/-- C3 (counterexample): one old unretained snapshot whose delete call
fails: dry-run returns it, non-dry-run returns the empty list, so the two
modes do not return the same matched-identifier list. -/
theorem dry_run_list_differs_on_delete_failure :
    (cleanup_snapshots [⟨"snap-1", 0, []⟩] 30 45 true (fun _ => false)).1 = ["snap-1"]
    ∧ (cleanup_snapshots [⟨"snap-1", 0, []⟩] 30 45 false (fun _ => false)).1 = []
    ∧ (cleanup_snapshots [⟨"snap-1", 0, []⟩] 30 45 true (fun _ => false)).1 ≠
      (cleanup_snapshots [⟨"snap-1", 0, []⟩] 30 45 false (fun _ => false)).1 := by
  decide

/-- C3 (amended): for identical input state, dry-run issues no delete
call; and provided every issued delete call succeeds, dry-run returns
exactly the list that non-dry-run returns.  (When a delete fails, its id
is missing from the non-dry-run list only.) -/
theorem dry_run_no_calls_and_same_list_when_deletes_succeed :
    ∀ (snaps : List CSnapshot) (r n : Int) (deleteOk : String → Bool),
      (cleanup_snapshots snaps r n true deleteOk).2 = []
      ∧ ((∀ sid, deleteOk sid = true) →
          (cleanup_snapshots snaps r n true deleteOk).1 =
            (cleanup_snapshots snaps r n false deleteOk).1) := by
  intro snaps r n deleteOk
  constructor
  · exact congrArg Prod.snd (cleanup_snapshots_spec snaps r n deleteOk).1
  · intro hok
    have hf : ((snaps.filter (snapshotEligible r n)).filter
        (fun s => deleteOk s.snapshotId)) = snaps.filter (snapshotEligible r n) :=
      List.filter_eq_self.mpr (fun a _ => hok a.snapshotId)
    rw [congrArg Prod.fst (cleanup_snapshots_spec snaps r n deleteOk).1,
      congrArg Prod.fst (cleanup_snapshots_spec snaps r n deleteOk).2, hf]

/-- Witness for the amended C3 theorem at a concrete input. -/
theorem dry_run_no_calls_witness :
    (cleanup_snapshots [⟨"snap-1", 0, []⟩] 30 45 true (fun _ => true)).2 = []
    ∧ (cleanup_snapshots [⟨"snap-1", 0, []⟩] 30 45 true (fun _ => true)).1 =
      (cleanup_snapshots [⟨"snap-1", 0, []⟩] 30 45 false (fun _ => true)).1 :=
  ⟨(dry_run_no_calls_and_same_list_when_deletes_succeed [⟨"snap-1", 0, []⟩] 30 45
      (fun _ => true)).1,
   (dry_run_no_calls_and_same_list_when_deletes_succeed [⟨"snap-1", 0, []⟩] 30 45
      (fun _ => true)).2 (fun _ => rfl)⟩

/-- C4 (code-bug evaluation): the invalid-selector branch does return a
400 client error, but the stop branch cannot return its 200 response —
the module never imports json, so the json.dumps in the return expression
raises NameError after the bulk stop call has already been issued. -/
theorem scheduler_handler_name_error_on_stop :
    scheduler_lambda_handler [⟨"i-1", [("AutoScheduler", "stop")], "running"⟩]
        "AutoScheduler" "stop" =
      ([["i-1"]], Except.error ("NameError: name json is not defined"))
    ∧ scheduler_lambda_handler [⟨"i-1", [("AutoScheduler", "stop")], "running"⟩]
        "AutoScheduler" "restart" =
      ([], Except.ok ⟨400, "Invalid action specified"⟩) :=
  ⟨rfl, rfl⟩

/-- C5 (counterexample): with an output path ending in neither .csv nor
.json, the cost-analysis script does exit with status 1, but the Cost
Explorer query has already been issued by then — the exit does not happen
before the remote call. -/
theorem bad_extension_exit_after_remote_call :
    (cost_analysis_main (some "report.txt")).2 = 1
    ∧ (cost_analysis_main (some "report.txt")).1 = [RemoteCall.getCostAndUsage]
    ∧ (cost_analysis_main (some "report.txt")).1 ≠ [] := by
  decide

/-- C5 (amended): a missing required region selector is rejected with a
non-zero exit before any remote call, while an output path with an
unrecognized extension exits non-zero only after the cost query has been
issued. -/
theorem validation_exit_behaviour :
    (∀ env : ScanEnv, unused_resources_main none false env = ([], 1))
    ∧ (∀ f : String, endsWithExt f ".csv" = false → endsWithExt f ".json" = false →
        cost_analysis_main (some f) = ([RemoteCall.getCostAndUsage], 1)) := by
  constructor
  · intro env
    rfl
  · intro f h1 h2
    simp [cost_analysis_main, h1, h2]

/-- Witness for the amended C5 theorem at concrete inputs. -/
theorem validation_exit_behaviour_witness :
    unused_resources_main none false ⟨[], [], [], []⟩ = ([], 1)
    ∧ cost_analysis_main (some "report.txt") = ([RemoteCall.getCostAndUsage], 1) :=
  ⟨validation_exit_behaviour.1 ⟨[], [], [], []⟩,
   validation_exit_behaviour.2 "report.txt" (by decide) (by decide)⟩

/-- C6 (counterexample): the unused-resources old-snapshot scan flags a
Retain-tagged snapshot that exceeds the retention window — its flagging
predicate does not evaluate to false for the override marker. -/
theorem unused_scan_flags_retained_snapshot :
    hasRetainTag [("Retain", "true")] = true
    ∧ (find_old_ebs_snapshots "us-east-1"
          [⟨"snap-1", "vol-1", 0, [("Retain", "true")]⟩] 30 45).map
        (fun f => f.snapshotIdF) = ["snap-1"] := by
  decide

/-- C6 (amended): in the snapshot-cleanup lambda a Retain-tagged snapshot
is never matched regardless of its age — the override skips the snapshot
before the age comparison — whereas the unused-resources old-snapshot
scan consults no tags at all: its output is unchanged when every tag list
is erased. -/
theorem retain_override_in_cleanup_lambda_only :
    (∀ (r n : Int) (s : CSnapshot), hasRetainTag s.tags = true →
        snapshotEligible r n s = false
        ∧ ∀ (snaps : List CSnapshot) (dryRun : Bool) (deleteOk : String → Bool),
            cleanup_snapshots (s :: snaps) r n dryRun deleteOk =
              cleanup_snapshots snaps r n dryRun deleteOk)
    ∧ (∀ (region : String) (snaps : List USnapshot) (r n : Int),
        find_old_ebs_snapshots region snaps r n =
          find_old_ebs_snapshots region (snaps.map (fun s => { s with tags := [] })) r n) := by
  constructor
  · intro r n s hs
    refine ⟨by simp [snapshotEligible, hs], ?_⟩
    intro snaps dryRun deleteOk
    simp [cleanup_snapshots, hs]
  · intro region snaps r n
    rw [find_old_ebs_snapshots, find_old_ebs_snapshots, List.filter_map, List.map_map]
    rfl

/-- Witness for the amended C6 theorem at a concrete aged,
Retain-tagged snapshot. -/
theorem retain_override_witness :
    snapshotEligible 30 45 ⟨"snap-1", 0, [("Retain", "true")]⟩ = false
    ∧ cleanup_snapshots [⟨"snap-1", 0, [("Retain", "true")]⟩] 30 45 false (fun _ => true) =
      cleanup_snapshots [] 30 45 false (fun _ => true) :=
  ⟨(retain_override_in_cleanup_lambda_only.1 30 45
      ⟨"snap-1", 0, [("Retain", "true")]⟩ (by decide)).1,
   (retain_override_in_cleanup_lambda_only.1 30 45
      ⟨"snap-1", 0, [("Retain", "true")]⟩ (by decide)).2 [] false (fun _ => true)⟩

/-- C7: in both utilization scanners the flagging comparison is strictly
less-than: an instance whose metric value V satisfies V < T is flagged
and one with V ≥ T (the boundary V = T included) is not — for the
idle-instance scan at any threshold and for the right-sizing scan at its
default memory threshold of 40. -/
theorem threshold_strict_less_flagging :
    ∀ (region : String) (days : Nat) (cpuT V W : ℚ) (i : UInstance) (j : RInstance),
      i.datapoints ≠ [] → j.datapoints ≠ [] →
      listMax i.datapoints = V → listMax j.datapoints = W →
      ((find_idle_ec2_instances region [i] cpuT days).map (fun f => f.instanceIdF) =
        if V < cpuT then [i.instanceId] else [])
      ∧ ((get_right_sizing_recommendations region [j] cpuT 40).map (fun f => f.instanceIdF) =
        if W < cpuT then [j.instanceId] else []) := by
  intro region days cpuT V W i j hi hj hV hW
  subst hV hW
  have hei : i.datapoints.isEmpty = false := List.isEmpty_eq_false.mpr hi
  have hej : j.datapoints.isEmpty = false := List.isEmpty_eq_false.mpr hj
  constructor
  · by_cases h : listMax i.datapoints < cpuT <;>
      simp [find_idle_ec2_instances, List.filter_cons, hei, h]
  · by_cases h : listMax j.datapoints < cpuT <;>
      simp [get_right_sizing_recommendations, List.filter_cons, hej, h,
        show (30 : ℚ) < 40 from by norm_num]

/-- Witness for C7 at concrete inputs, including the boundary: a metric
value exactly at the threshold is not flagged, one strictly below is. -/
theorem threshold_strict_less_flagging_witness :
    (find_idle_ec2_instances "us-east-1" [⟨"i-1", "t3.large", [5]⟩] 5 14).map
        (fun f => f.instanceIdF) = []
    ∧ (get_right_sizing_recommendations "us-east-1" [⟨"i-2", "m5.xlarge", [3]⟩] 5 40).map
        (fun f => f.instanceIdF) = ["i-2"] := by
  have h := threshold_strict_less_flagging "us-east-1" 14 5 5 3
    ⟨"i-1", "t3.large", [5]⟩ ⟨"i-2", "m5.xlarge", [3]⟩
    (by decide) (by decide) rfl rfl
  exact ⟨h.1.trans (by norm_num), h.2.trans (by norm_num)⟩

/-- C9 (counterexample): an instance whose daily datapoints average 3%
against threshold 5.0 need not be included: with datapoints 0 and 6 the
mean is 3 but the scan compares the maximum datapoint, 6, which is not
below 5, so the instance is absent from the findings. -/
theorem mean_three_not_sufficient :
    sampleMean [0, 6] = 3
    ∧ find_idle_ec2_instances "us-east-1" [⟨"i-1", "m5.large", [0, 6]⟩] 5 14 = [] := by
  constructor
  · simp [sampleMean]
    norm_num
  · simp [find_idle_ec2_instances, List.filter_cons, listMax]
    norm_num

/-- C9 (amended): a running instance whose daily-average CPU datapoints
have maximum 3% — for example samples constant at 3% — over the scan
window, against threshold 5.0, is included in the findings with the
metric value rendered as "3.00%". -/
theorem max_three_included_with_rendered_value :
    ∀ (region : String) (days : Nat) (i : UInstance),
      i.datapoints ≠ [] → listMax i.datapoints = 3 →
      find_idle_ec2_instances region [i] 5 days =
        [⟨i.instanceId, i.instanceType, region, "Idle EC2 Instance",
          "Max CPU Utilization (" ++ toString days ++ "d)", "3.00%",
          "Stop or terminate instance"⟩] := by
  intro region days i hi h3
  have he : i.datapoints.isEmpty = false := List.isEmpty_eq_false.mpr hi
  have hv : format2 (3 : ℚ) = "3.00" := by
    have h : roundHalfEven ((3 : ℚ) * 100) = 300 := by norm_num [roundHalfEven]
    simp only [format2, h]
    rfl
  simp [find_idle_ec2_instances, List.filter_cons, he, h3, hv,
    show (3 : ℚ) < 5 from by norm_num]

/-- Witness for the amended C9 theorem: samples constant at 3%. -/
theorem max_three_included_witness :
    find_idle_ec2_instances "us-east-1" [⟨"i-1", "m5.large", [3, 3]⟩] 5 14 =
      [⟨"i-1", "m5.large", "us-east-1", "Idle EC2 Instance",
        "Max CPU Utilization (14d)", "3.00%", "Stop or terminate instance"⟩] := by
  have h := max_three_included_with_rendered_value "us-east-1" 14
    ⟨"i-1", "m5.large", [3, 3]⟩ (by decide) (by simp [listMax])
  exact h.trans (by decide)

/-- C10: a cost report whose two groups carry costs 100.00 and 50.00 (the
smaller listed first in the raw response) is sorted by cost descending —
the 100.00 group first — and the computed percentage-of-total fields are
66.67 and 33.33. -/
theorem cost_report_sorted_with_percentages :
    calculate_percentage (analyze_costs "SERVICE"
        [⟨"2025-01-01", "2025-02-01",
          [⟨["Amazon S3"], 50, "USD"⟩, ⟨["Amazon EC2"], 100, "USD"⟩]⟩]) =
      [⟨"2025-01-01", "2025-02-01", "SERVICE", "Amazon EC2", 100, "USD", some (6667 / 100)⟩,
       ⟨"2025-01-01", "2025-02-01", "SERVICE", "Amazon S3", 50, "USD", some (3333 / 100)⟩] := by
  have hp1 : round2 ((200 : ℚ) / 3) = 6667 / 100 := by
    have h : roundHalfEven ((200 : ℚ) / 3 * 100) = 6667 := by norm_num [roundHalfEven]
    simp only [round2, h]
    norm_num
  have hp2 : round2 ((100 : ℚ) / 3) = 3333 / 100 := by
    have h : roundHalfEven ((100 : ℚ) / 3 * 100) = 3333 := by norm_num [roundHalfEven]
    simp only [round2, h]
    norm_num
  have h100 : round2 (100 : ℚ) = 100 := by norm_num [round2, roundHalfEven]
  have h50 : round2 (50 : ℚ) = 50 := by norm_num [round2, roundHalfEven]
  simp only [analyze_costs, parseCostRecords, List.map, List.flatten, List.append_nil,
    h50, h100, sortCostDesc, insertCostDesc]
  norm_num [calculate_percentage, calculate_total_cost, hp1, hp2]

end FinOps
